import Mathlib

/-!
Verification of the insteon-mqtt command-sequencing and device-protocol core
against its natural-language specification.

The Lean definitions below are a shallow embedding of the Python source:

* `CommandSeq.py` — sequenced command executor (`seqOnDone`, `seqRun`),
* `device/Motion.py` — motion sensor state machine (flag encoding, battery
  voltage decoding, timeout encoding, auto battery check),
* `device/Thermostat.py` — thermostat state machine (units, setpoint
  commands, status decoding).

Machine arithmetic from Python is made explicit: `pythonInt` is `int()`
(truncation toward zero), `roundHalfEven` / `pythonRound2` are `round()`
(banker's rounding) on exact rationals, and `mkBytes` is `bytes()`, which
fails when an element is outside `[0, 255]`.
-/

namespace InsteonMqtt

/-! ## Python numeric primitives -/

/-- Python `int()` applied to an exact rational: truncation toward zero. -/
def pythonInt (q : ℚ) : ℤ := if q < 0 then ⌈q⌉ else ⌊q⌋

/-- Python `round()` to zero digits on an exact rational: nearest integer,
ties go to the even integer (banker's rounding). -/
def roundHalfEven (q : ℚ) : ℤ :=
  let f := ⌊q⌋
  let r := q - (f : ℚ)
  if r < 1/2 then f
  else if 1/2 < r then f + 1
  else if f % 2 = 0 then f else f + 1

/-- Python `round(x, 2)` on an exact rational. -/
def pythonRound2 (q : ℚ) : ℚ := (roundHalfEven (q * 100) : ℚ) / 100

/-- Python `bytes(l)`: succeeds only when every element is in `[0, 255]`. -/
def mkBytes (l : List ℤ) : Option (List Nat) :=
  if l.all (fun b => decide (0 ≤ b) && decide (b < 256)) then
    some (l.map Int.toNat)
  else
    none

/-! ## util bit helpers

These live in `insteon_mqtt/util.py`, which is not part of the sources
under verification; they are modelled from the spec. -/

/-- Modelled from the spec: `util.bit_set(value, b, flag)` writes bit `b` of
`value` to `flag` leaving the other bits alone (spec section 3 flag layout:
selected bits carry the flags, all other bits stay 0 on write). -/
def bit_set (value : Nat) (b : Nat) (flag : Bool) : Nat :=
  (value / 2 ^ (b + 1)) * 2 ^ (b + 1) + (if flag then 2 ^ b else 0) + value % 2 ^ b

/-- Modelled from the spec: `util.bit_get(value, b)` reads bit `b` of `value`
as 0 or 1. -/
def bit_get (value : Nat) (b : Nat) : Nat := value / 2 ^ b % 2

/-! ## Metadata store

Python-side this is `device.db.get_meta` / `set_meta`, outside the sources
under verification; the semantics is modelled from the spec (section 6):
`get_meta(namespace) -> mapping|none`, `set_meta(namespace, mapping)`
replaces the whole namespace.  Mappings are association lists with
Python-`dict` update semantics. -/

/-- Association-list lookup with string keys (Python `d[k]` / `k in d`). -/
def alLookup {β : Type} : List (String × β) → String → Option β
  | [], _ => none
  | (k, v) :: rest, key => if k = key then some v else alLookup rest key

/-- Association-list update (Python `d[k] = v` / `d.update(...)` for a single
key): overwrites in place or appends a new key at the end. -/
def alSet {β : Type} : List (String × β) → String → β → List (String × β)
  | [], key, v => [(key, v)]
  | (k, w) :: rest, key, v =>
    if k = key then (key, v) :: rest else (k, w) :: alSet rest key v

/-- One metadata namespace: a mapping from string keys to scalars. -/
abbrev MetaNS := List (String × ℚ)

/-- The per-device metadata record: namespace name to mapping. -/
abbrev MetaStore := List (String × MetaNS)

/-- Modelled from the spec: `db.get_meta(namespace)` returns the namespace
mapping or none. -/
def get_meta (s : MetaStore) (ns : String) : Option MetaNS := alLookup s ns

/-- Modelled from the spec: `db.set_meta(namespace, mapping)` replaces the
whole namespace. -/
def set_meta (s : MetaStore) (ns : String) (m : MetaNS) : MetaStore :=
  alSet s ns m

/-! ## CommandSeq

`CommandSeq.run` fires the internal `on_done` with a synthetic success;
`CommandSeq.on_done(success, msg, data)` either reports a failure to the
terminal callback, reports overall success with the constructor message when
no calls remain, or pops and runs the next entry with itself as that entry's
completion callback.  A step is represented by the triple its completion
callback receives (the execution hypothesis that each step completes exactly
once is thereby built into the model).  `seqOnDone` returns the list of
terminal-callback invocations together with the list of steps that ran. -/

/-- One queued step, described by the completion triple it reports. -/
structure Step (α : Type) where
  success : Bool
  msg : Option String
  data : Option α
deriving Repr

/-- Embedding of `CommandSeq.on_done` (with `Entry.run` inlined): given the
remaining calls and the completion triple of the step that just finished,
return every terminal-callback invocation that eventually happens together
with the list of steps that were started. -/
def seqOnDone {α : Type} (ctorMsg : Option String) (calls : List (Step α))
    (success : Bool) (msg : Option String) (data : Option α) :
    List (Bool × Option String × Option α) × List (Step α) :=
  if success = false then ([(success, msg, data)], [])
  else
    match calls with
    | [] => ([(success, ctorMsg, data)], [])
    | s :: rest =>
      let r := seqOnDone ctorMsg rest s.success s.msg s.data
      (r.1, s :: r.2)

/-- Embedding of `CommandSeq.run`: kick off `on_done` with a synthetic
`(True, None, None)`. -/
def seqRun {α : Type} (ctorMsg : Option String) (calls : List (Step α)) :
    List (Bool × Option String × Option α) × List (Step α) :=
  seqOnDone ctorMsg calls true none none

/-- The terminal-callback invocations of a run. -/
def seqTerminalCalls {α : Type} (ctorMsg : Option String)
    (calls : List (Step α)) : List (Bool × Option String × Option α) :=
  (seqRun ctorMsg calls).1

/-- The steps a run actually started. -/
def seqExecuted {α : Type} (ctorMsg : Option String) (calls : List (Step α)) :
    List (Step α) :=
  (seqRun ctorMsg calls).2

/-- The (unique) terminal-callback triple of a run. -/
def seqTerminal {α : Type} (ctorMsg : Option String) (calls : List (Step α)) :
    Bool × Option String × Option α :=
  (seqRun ctorMsg calls).1.headD (true, none, none)

/-- Data threading through an all-success run: the last step's data, or the
incoming data when no step remains. -/
def lastData {α : Type} : List (Step α) → Option α → Option α
  | [], d => d
  | s :: rest, _ => lastData rest s.data

/-! ### CommandSeq helper lemmas -/

theorem seqOnDone_length {α : Type} (m : Option String) :
    ∀ (calls : List (Step α)) (success : Bool) (msg : Option String)
      (data : Option α),
      ((seqOnDone m calls success msg data).1).length = 1 := by
  intro calls
  induction calls with
  | nil => intro success msg data; cases success <;> simp [seqOnDone]
  | cons s rest ih =>
    intro success msg data
    cases success
    · simp [seqOnDone]
    · simp [seqOnDone, ih]

theorem seqOnDone_flag {α : Type} (m : Option String) :
    ∀ (calls : List (Step α)) (success : Bool) (msg : Option String)
      (data : Option α),
      ((seqOnDone m calls success msg data).1.headD (true, none, none)).1
        = (success && ((seqOnDone m calls success msg data).2).all
            (fun s => s.success)) := by
  intro calls
  induction calls with
  | nil => intro success msg data; cases success <;> simp [seqOnDone]
  | cons s rest ih =>
    intro success msg data
    cases success
    · simp [seqOnDone]
    · simpa [seqOnDone] using ih s.success s.msg s.data

theorem seqOnDone_all_success {α : Type} (m : Option String) :
    ∀ (calls : List (Step α)), (∀ s ∈ calls, s.success = true) →
      ∀ (msg : Option String) (data : Option α),
        seqOnDone m calls true msg data
          = ([(true, m, lastData calls data)], calls) := by
  intro calls
  induction calls with
  | nil => intro _ msg data; simp [seqOnDone, lastData]
  | cons s rest ih =>
    intro h msg data
    have hs : s.success = true := h s (List.mem_cons_self s rest)
    have hrest : ∀ t ∈ rest, t.success = true := fun t ht =>
      h t (List.mem_cons_of_mem s ht)
    simp [seqOnDone, hs, ih hrest, lastData]

theorem seqOnDone_false {α : Type} (m : Option String) (calls : List (Step α))
    (msg : Option String) (data : Option α) :
    seqOnDone m calls false msg data = ([(false, msg, data)], []) := by
  cases calls <;> simp [seqOnDone]

theorem seqOnDone_first_fail {α : Type} (m : Option String) (s : Step α)
    (post : List (Step α)) (hs : s.success = false) :
    ∀ (pre : List (Step α)), (∀ t ∈ pre, t.success = true) →
      ∀ (msg : Option String) (data : Option α),
        seqOnDone m (pre ++ s :: post) true msg data
          = ([(false, s.msg, s.data)], pre ++ [s]) := by
  intro pre
  induction pre with
  | nil =>
    intro _ msg data
    simp [seqOnDone, hs, seqOnDone_false]
  | cons t pre' ih =>
    intro h msg data
    have ht : t.success = true := h t (List.mem_cons_self t pre')
    have hpre' : ∀ u ∈ pre', u.success = true := fun u hu =>
      h u (List.mem_cons_of_mem t hu)
    simp [seqOnDone, ht, ih hpre' t.msg t.data]

theorem lastData_eq {α : Type} :
    ∀ (calls : List (Step α)) (d : Option α),
      lastData calls d = ((calls.getLast?).map Step.data).getD d := by
  intro calls
  induction calls with
  | nil => intro d; simp [lastData]
  | cons s rest ih =>
    intro d
    cases rest with
    | nil => simp [lastData]
    | cons t rest' => simpa [lastData, List.getLast?_cons_cons] using ih s.data

/-! ### Claim C1 and C2 theorems -/

/-- C1: for every Command Sequence instance, on any execution in which each
step invokes its completion callback exactly once (a step being represented
by the triple that callback receives), the terminal `on_done` callback is
invoked exactly once, regardless of which step (if any) fails. -/
theorem commandSeq_terminal_exactly_once {α : Type} (ctorMsg : Option String)
    (calls : List (Step α)) :
    (seqTerminalCalls ctorMsg calls).length = 1 :=
  seqOnDone_length ctorMsg calls true none none

/-- C2: the terminal success flag equals the AND of the executed steps'
success flags; when every step succeeds, all steps run and the terminal
callback receives `(true, constructor message, last step's data)`; execution
stops at the first step reporting `success = false` (later steps never run)
and the terminal callback then receives the failing step's message and data
verbatim. -/
theorem commandSeq_short_circuit {α : Type} (ctorMsg : Option String)
    (calls : List (Step α)) :
    ((seqTerminal ctorMsg calls).1
        = (seqExecuted ctorMsg calls).all (fun s => s.success))
    ∧ ((∀ s ∈ calls, s.success = true) →
        seqExecuted ctorMsg calls = calls
        ∧ seqTerminal ctorMsg calls
            = (true, ctorMsg, (calls.getLast?).bind Step.data))
    ∧ (∀ (pre : List (Step α)) (s : Step α) (post : List (Step α)),
        calls = pre ++ s :: post → (∀ t ∈ pre, t.success = true) →
        s.success = false →
        seqExecuted ctorMsg calls = pre ++ [s]
        ∧ seqTerminal ctorMsg calls = (false, s.msg, s.data)) := by
  refine ⟨?_, ?_, ?_⟩
  · simpa [seqTerminal, seqExecuted, seqRun]
      using seqOnDone_flag ctorMsg calls true none none
  · intro h
    have := seqOnDone_all_success ctorMsg calls h none none
    have hlast : lastData calls none = (calls.getLast?).bind Step.data := by
      rw [lastData_eq]
      cases calls.getLast? <;> simp
    constructor
    · simp [seqExecuted, seqRun, this]
    · simp [seqTerminal, seqRun, this, hlast]
  · intro pre s post hcalls hpre hs
    have := seqOnDone_first_fail ctorMsg s post hs pre hpre none none
    constructor
    · simp [seqExecuted, seqRun, hcalls, this]
    · simp [seqTerminal, seqRun, hcalls, this]

/-- Witness for C2: the spec's short-circuit scenario.  Three steps, step 2
reports `(false, "oops", none)`: exactly the first two steps run and the
terminal callback receives `(false, "oops", none)`. -/
theorem commandSeq_short_circuit_witness :
    seqExecuted (some "seq done") [⟨true, none, some (1 : ℚ)⟩,
        ⟨false, some "oops", none⟩, ⟨true, none, some 3⟩]
      = [⟨true, none, some (1 : ℚ)⟩, ⟨false, some "oops", none⟩]
    ∧ seqTerminal (some "seq done") [⟨true, none, some (1 : ℚ)⟩,
        ⟨false, some "oops", none⟩, ⟨true, none, some 3⟩]
      = (false, some "oops", none) :=
  (commandSeq_short_circuit (some "seq done") _).2.2
    [⟨true, none, some (1 : ℚ)⟩] ⟨false, some "oops", none⟩
    [⟨true, none, some 3⟩] rfl (by simp) rfl

/-! ## Motion sensor (`device/Motion.py`) -/

/-- Characters of a string before the first dash (helper for Python's
`model.split("-")[0]`). -/
def takeUntilDash : List Char → List Char
  | [] => []
  | c :: rest => if c = '-' then [] else c :: takeUntilDash rest

/-- Python `model.split("-")[0]`: the substring before the first dash, or the
whole string when it has no dash. -/
def modelHead (s : String) : String := String.mk (takeUntilDash s.data)

/-- The `self.db.desc is not None and self.db.desc.model.split("-")[0] ==
"2842"` test used throughout `Motion.py` (`desc` is the model string, or
`none` when the device description is unknown). -/
def is2842 (desc : Option String) : Bool :=
  match desc with
  | some model => modelHead model == "2842"
  | none => false

/-- The device test of `Motion.auto_check_battery`: description known and
model prefixed `2842` or `2844`. -/
def supportsBattery (desc : Option String) : Bool :=
  match desc with
  | some model => modelHead model == "2842" || modelHead model == "2844"
  | none => false

/-- `Motion.battery_voltage_time` getter: the saved timestamp, `0` when the
`Motion` namespace or the key is missing. -/
def battery_voltage_time (s : MetaStore) : ℚ :=
  match get_meta s "Motion" with
  | some m =>
    match alLookup m "battery_voltage_time" with
    | some v => v
    | none => 0
  | none => 0

/-- `Motion.battery_voltage_time` setter: merge the key into the existing
`Motion` namespace, or create the namespace when absent. -/
def battery_voltage_time_set (s : MetaStore) (val : ℚ) : MetaStore :=
  match get_meta s "Motion" with
  | some existing => set_meta s "Motion" (alSet existing "battery_voltage_time" val)
  | none => set_meta s "Motion" [("battery_voltage_time", val)]

/-- `Motion.battery_low_voltage` getter: default 7.0 V for `2842` models and
1.85 V otherwise, overridden by the saved metadata value when present. -/
def battery_low_voltage (desc : Option String) (s : MetaStore) : ℚ :=
  let dflt : ℚ := if is2842 desc then 7 else 37/20
  match get_meta s "Motion" with
  | some m =>
    match alLookup m "battery_low_voltage" with
    | some v => v
    | none => dflt
  | none => dflt

/-- `Motion.battery_low_voltage` setter: merge the key into the existing
`Motion` namespace, or create the namespace when absent. -/
def battery_low_voltage_set (s : MetaStore) (val : ℚ) : MetaStore :=
  match get_meta s "Motion" with
  | some existing => set_meta s "Motion" (alSet existing "battery_low_voltage" val)
  | none => set_meta s "Motion" [("battery_low_voltage", val)]

/-- The D3 operating-flags byte composed by `Motion._change_flags`: bit 3 is
`led_on`, bit 2 is the *inverted* `night_only`, bit 1 is the *inverted*
`on_only`, starting from 0 (flag ints are Python-truthy). -/
def changeFlagsByte (led_on night_only on_only : Nat) : Nat :=
  bit_set (bit_set (bit_set 0 3 (decide (led_on ≠ 0)))
    2 (decide (night_only = 0))) 1 (decide (on_only = 0))

/-- The `(led_on, night_only, on_only)` triple stored by
`Motion.handle_ext_flags` from the reply's D6 byte (parsed index 5):
`bit_get` of bits 3, 2 and 1, with no inversion. -/
def handleExtFlagsTriple (d6 : Nat) : Nat × Nat × Nat :=
  (bit_get d6 3, bit_get d6 2, bit_get d6 1)

/-- Everything `Motion.handle_ext_flags` does: stored flag bits, updated
metadata store, decoded battery volts, the emitted `signal_low_battery`
payload and the completion triple. -/
structure ExtFlagsResult where
  led_on : Nat
  night_only : Nat
  on_only : Nat
  store : MetaStore
  volts : ℚ
  low_battery : Bool
  done : Bool × String × Nat
deriving Repr

/-- Embedding of `Motion.handle_ext_flags`: decode D6 flag bits, decode the
battery voltage from D12 (parsed index 11) as `raw / 10` for `2842` models
and `round(raw / 72, 2)` otherwise, stamp `battery_voltage_time = now`, emit
`signal_low_battery(volts <= battery_low_voltage)` and complete with
`(True, "Operation complete", D6)`. -/
def motionHandleExtFlags (desc : Option String) (s : MetaStore)
    (data : List Nat) (now : ℚ) : ExtFlagsResult :=
  let d6 := data.getD 5 0
  let raw := data.getD 11 0
  let batt_volt : ℚ :=
    if is2842 desc then (raw : ℚ) / 10 else pythonRound2 ((raw : ℚ) / 72)
  let s' := battery_voltage_time_set s now
  { led_on := bit_get d6 3
    night_only := bit_get d6 2
    on_only := bit_get d6 1
    store := s'
    volts := batt_volt
    low_battery := decide (batt_volt ≤ battery_low_voltage desc s')
    done := (true, "Operation complete", d6) }

/-- An outbound extended Insteon frame (address and flags omitted). -/
structure OutExt where
  cmd1 : Nat
  cmd2 : ℤ
  data : List Nat
deriving Repr, DecidableEq

/-- The D3 value computed by `Motion._set_timeout`: clamp to `[30, 14400]`
and encode `int(timeout/30) - 1` for `2842` models, clamp to `[10, 2400]`
and encode `int(timeout/10)` otherwise. -/
def motion_set_timeout_encoded (desc : Option String) (t : ℤ) : ℤ :=
  if is2842 desc then
    let t := if t < 30 then 30 else t
    let t := if t > 14400 then 14400 else t
    t.tdiv 30 - 1
  else
    let t := if t < 10 then 10 else t
    let t := if t > 2400 then 2400 else t
    t.tdiv 10

/-- The frame `Motion._set_timeout` sends: extended `(0x2e, 0x00)` with
`D1 = 0x00`, `D2 = 0x03`, `D3 =` encoded timeout, the rest zero — provided
`bytes()` accepts the payload. -/
def motion_set_timeout_msg (desc : Option String) (t : ℤ) : Option OutExt :=
  match mkBytes ([0, 0x03, motion_set_timeout_encoded desc t]
      ++ List.replicate 11 0) with
  | some d => some ⟨0x2e, 0x00, d⟩
  | none => none

/-- `Motion.BATTERY_TIME`: four days, in seconds. -/
def BATTERY_TIME : ℚ := 60 * 60 * 24 * 4

/-- Embedding of `Motion.auto_check_battery`: on a supporting model, when
both the battery-age and the 5-minute dedupe conditions hold, fire a request
and stamp `_battery_request_time = now`.  Returns (request fired?, new
`_battery_request_time`). -/
def auto_check_battery (desc : Option String) (s : MetaStore)
    (reqTime : ℚ) (now : ℚ) : Bool × ℚ :=
  if supportsBattery desc then
    if battery_voltage_time s + BATTERY_TIME ≤ now ∧ reqTime + 300 ≤ now then
      (true, now)
    else
      (false, reqTime)
  else
    (false, reqTime)

/-! ## Thermostat (`device/Thermostat.py`) -/

/-- `Thermostat.FARENHEIT` (sic, spelling from the source). -/
def FARENHEIT : ℚ := 0

/-- `Thermostat.CELSIUS`. -/
def CELSIUS : ℚ := 1

/-- `Thermostat.Fan` enum. -/
inductive Fan
  | auto
  | on
deriving Repr, DecidableEq

/-- `Thermostat.Fan(n)` — `none` models the `ValueError` branch. -/
def Fan.ofNat? (n : Nat) : Option Fan :=
  match n with
  | 0 => some Fan.auto
  | 1 => some Fan.on
  | _ => none

/-- `Thermostat.Mode` enum. -/
inductive Mode
  | off
  | auto
  | heat
  | cool
  | program
deriving Repr, DecidableEq

/-- `Thermostat.Mode(n)` — `none` models the `ValueError` branch. -/
def Mode.ofNat? (n : Nat) : Option Mode :=
  match n with
  | 0 => some Mode.off
  | 1 => some Mode.auto
  | 2 => some Mode.heat
  | 3 => some Mode.cool
  | 4 => some Mode.program
  | _ => none

/-- `Thermostat.units` getter: the saved metadata value, defaulting to
`FARENHEIT` when the `thermostat` namespace or its `units` key is absent. -/
def thermo_units (s : MetaStore) : ℚ :=
  match get_meta s "thermostat" with
  | some m =>
    match alLookup m "units" with
    | some v => v
    | none => FARENHEIT
  | none => FARENHEIT

/-- `Thermostat.units` setter: replace the whole `thermostat` namespace with
the single-key mapping when the value is valid, do nothing otherwise. -/
def thermo_units_set (s : MetaStore) (val : ℚ) : MetaStore :=
  if val = FARENHEIT ∨ val = CELSIUS then
    set_meta s "thermostat" [("units", val)]
  else
    s

/-- The `cmd2` computed by `Thermostat.heat_sp_command`: convert Celsius to
Fahrenheit when the stored units are Fahrenheit, clamp to `[0, 127]`, and
take `int(temp * 2)`. -/
def heat_sp_cmd2 (s : MetaStore) (temp_c : ℚ) : ℤ :=
  let temp := if thermo_units s = FARENHEIT then temp_c * 9 / 5 + 32 else temp_c
  let temp := if temp < 0 then 0 else temp
  let temp := if temp > 127 then 127 else temp
  pythonInt (temp * 2)

/-- The `cmd2` computed by `Thermostat.cool_sp_command` (same computation as
the heat variant, sent with a different `cmd1`). -/
def cool_sp_cmd2 (s : MetaStore) (temp_c : ℚ) : ℤ :=
  let temp := if thermo_units s = FARENHEIT then temp_c * 9 / 5 + 32 else temp_c
  let temp := if temp < 0 then 0 else temp
  let temp := if temp > 127 then 127 else temp
  pythonInt (temp * 2)

/-- The frame `Thermostat.heat_sp_command` sends: `(0x6d, cmd2, 14 zeros)`. -/
def heat_sp_msg (s : MetaStore) (temp_c : ℚ) : OutExt :=
  ⟨0x6d, heat_sp_cmd2 s temp_c, List.replicate 14 0⟩

/-- The frame `Thermostat.cool_sp_command` sends: `(0x6c, cmd2, 14 zeros)`. -/
def cool_sp_msg (s : MetaStore) (temp_c : ℚ) : OutExt :=
  ⟨0x6c, cool_sp_cmd2 s temp_c, List.replicate 14 0⟩

/-- Embedding of `Thermostat.process_status_flag`: returns the updated store
(the units bit is written to metadata) and the emitted `status_change`,
`hold_change` and `energy_change` payloads, in emission order. -/
def process_status_flag (s : MetaStore) (flag : Nat) :
    MetaStore × String × Bool × Bool :=
  let cooling := flag &&& 1
  let heating := (flag >>> 1) &&& 1
  let energy := (flag >>> 2) &&& 1
  let s' := thermo_units_set s (((flag >>> 3) &&& 1 : Nat) : ℚ)
  let hold := (flag >>> 4) &&& 1
  let status := if cooling ≠ 0 then "cooling"
    else if heating ≠ 0 then "heating" else "off"
  (s', status, hold ≠ 0, energy ≠ 0)

/-- Everything `Thermostat.handle_status` produces: the updated store and
every emitted signal payload (`fan` and `mode` are `none` when the received
code is outside the enum and no signal is emitted). -/
structure StatusResult where
  store : MetaStore
  status : String
  hold : Bool
  energy : Bool
  fan : Option Fan
  mode : Option Mode
  cool_sp : ℚ
  humid : Nat
  temp : ℚ
  heat_sp : ℚ
deriving Repr

/-- Embedding of `Thermostat.handle_status` over the parsed D1..D14 byte
array (indices 0..13): D11 is processed first (establishing units), then
D6 (fan and mode nibbles), D7 (cool setpoint, Fahrenheit-converted when the
freshly stored units say so), D8 (humidity), D9-D10 (ambient temperature,
big-endian Celsius*10) and D12 (heat setpoint, converted like D7). -/
def handle_status (s : MetaStore) (data : List Nat) : StatusResult :=
  let flag := data.getD 10 0
  let p := process_status_flag s flag
  let s1 := p.1
  let sys := data.getD 5 0
  let fan := Fan.ofNat? (sys &&& 1)
  let mode := Mode.ofNat? (sys >>> 4)
  let cool0 : ℚ := (data.getD 6 0 : ℚ)
  let cool := if thermo_units s1 = FARENHEIT then (cool0 - 32) * 5 / 9 else cool0
  let humid := data.getD 7 0
  let temp : ℚ := ((data.getD 8 0 * 256 + data.getD 9 0 : Nat) : ℚ) / 10
  let heat0 : ℚ := (data.getD 11 0 : ℚ)
  let heat := if thermo_units s1 = FARENHEIT then (heat0 - 32) * 5 / 9 else heat0
  { store := s1
    status := p.2.1
    hold := p.2.2.1
    energy := p.2.2.2
    fan := fan
    mode := mode
    cool_sp := cool
    humid := humid
    temp := temp
    heat_sp := heat }

/-- A thermostat signal emission with its payload. -/
inductive TSig
  | statusSig (s : String)
  | holdSig (b : Bool)
  | energySig (b : Bool)
  | fanSig (f : Fan)
  | modeSig (m : Mode)
  | coolSpSig (t : ℚ)
  | humidSig (h : Nat)
  | tempSig (t : ℚ)
  | heatSpSig (t : ℚ)
deriving Repr, DecidableEq

/-- The ordered list of signals a `handle_status` run emits, following the
source's emission order: status, hold, energy (from `process_status_flag`),
then fan, mode, cool setpoint, humidity, ambient temperature and heat
setpoint; unknown fan or mode codes emit nothing. -/
def StatusResult.signals (r : StatusResult) : List TSig :=
  [TSig.statusSig r.status, TSig.holdSig r.hold, TSig.energySig r.energy]
  ++ (match r.fan with | some f => [TSig.fanSig f] | none => [])
  ++ (match r.mode with | some m => [TSig.modeSig m] | none => [])
  ++ [TSig.coolSpSig r.cool_sp, TSig.humidSig r.humid,
      TSig.tempSig r.temp, TSig.heatSpSig r.heat_sp]

/-! ### Association-list lemmas -/

theorem alLookup_alSet_self {β : Type} (m : List (String × β)) (k : String)
    (v : β) : alLookup (alSet m k v) k = some v := by
  induction m with
  | nil => simp [alSet, alLookup]
  | cons p rest ih =>
    by_cases h : p.1 = k
    · simp [alSet, alLookup, h]
    · simp [alSet, alLookup, h, ih]

theorem alLookup_alSet_ne {β : Type} (m : List (String × β)) (key k : String)
    (v : β) (h : ¬ key = k) : alLookup (alSet m key v) k = alLookup m k := by
  induction m with
  | nil => simp [alSet, alLookup, h]
  | cons p rest ih =>
    by_cases hp : p.1 = key
    · simp [alSet, alLookup, hp, h]
    · simp [alSet, alLookup, hp, ih]

/-! ### Claim C6 -/

/-- C6 counterexample: with a `thermostat` namespace holding an extra key
`other`, the `Thermostat.units` setter drops that key — the write is not a
read-modify-write of the namespace dictionary. -/
theorem thermo_units_set_drops_sibling_keys :
    (get_meta [("thermostat", [("units", (0 : ℚ)), ("other", 5)])]
        "thermostat").bind (fun m => alLookup m "other") = some 5
    ∧ thermo_units_set [("thermostat", [("units", (0 : ℚ)), ("other", 5)])] 1
        = [("thermostat", [("units", (1 : ℚ))])]
    ∧ (get_meta (thermo_units_set
          [("thermostat", [("units", (0 : ℚ)), ("other", 5)])] 1)
        "thermostat").bind (fun m => alLookup m "other") = none := by
  have hne : ¬ ("units" = "other") := by decide
  refine ⟨rfl, ?_, ?_⟩ <;>
    norm_num [thermo_units_set, set_meta, get_meta, alSet, alLookup,
      FARENHEIT, CELSIUS, hne]

/-- C6 amended: the Motion `battery_voltage_time` and `battery_low_voltage`
setters are read-modify-write on the `Motion` namespace — every other key of
that namespace and every other namespace are unchanged.  The Thermostat
`units` setter instead replaces the whole `thermostat` namespace with the
single-key mapping (so sibling keys are dropped), leaving other namespaces
untouched. -/
theorem metadata_write_frame (s : MetaStore) (v : ℚ) (k ns : String) :
    (¬ k = "battery_voltage_time" →
      (get_meta (battery_voltage_time_set s v) "Motion").bind
          (fun m => alLookup m k)
        = (get_meta s "Motion").bind (fun m => alLookup m k))
    ∧ (¬ ns = "Motion" →
        get_meta (battery_voltage_time_set s v) ns = get_meta s ns)
    ∧ (¬ k = "battery_low_voltage" →
        (get_meta (battery_low_voltage_set s v) "Motion").bind
            (fun m => alLookup m k)
          = (get_meta s "Motion").bind (fun m => alLookup m k))
    ∧ (¬ ns = "Motion" →
        get_meta (battery_low_voltage_set s v) ns = get_meta s ns)
    ∧ (¬ ns = "thermostat" →
        get_meta (thermo_units_set s v) ns = get_meta s ns)
    ∧ ((v = 0 ∨ v = 1) →
        get_meta (thermo_units_set s v) "thermostat" = some [("units", v)]) := by
  refine ⟨?_, ?_, ?_, ?_, ?_, ?_⟩
  · intro hk
    have hk' : ¬ ("battery_voltage_time" = k) := fun h => hk h.symm
    unfold battery_voltage_time_set
    cases hm : get_meta s "Motion" with
    | none =>
      simp [hm, get_meta, set_meta, alLookup_alSet_self, alLookup, hk']
    | some existing =>
      simp [hm, get_meta, set_meta, alLookup_alSet_self,
        alLookup_alSet_ne existing "battery_voltage_time" k v hk']
  · intro hns
    unfold battery_voltage_time_set
    cases hm : get_meta s "Motion" with
    | none =>
      simp [get_meta, set_meta,
        alLookup_alSet_ne s "Motion" ns _ (fun h => hns h.symm)]
    | some existing =>
      simp [get_meta, set_meta,
        alLookup_alSet_ne s "Motion" ns _ (fun h => hns h.symm)]
  · intro hk
    have hk' : ¬ ("battery_low_voltage" = k) := fun h => hk h.symm
    unfold battery_low_voltage_set
    cases hm : get_meta s "Motion" with
    | none =>
      simp [hm, get_meta, set_meta, alLookup_alSet_self, alLookup, hk']
    | some existing =>
      simp [hm, get_meta, set_meta, alLookup_alSet_self,
        alLookup_alSet_ne existing "battery_low_voltage" k v hk']
  · intro hns
    unfold battery_low_voltage_set
    cases hm : get_meta s "Motion" with
    | none =>
      simp [get_meta, set_meta,
        alLookup_alSet_ne s "Motion" ns _ (fun h => hns h.symm)]
    | some existing =>
      simp [get_meta, set_meta,
        alLookup_alSet_ne s "Motion" ns _ (fun h => hns h.symm)]
  · intro hns
    unfold thermo_units_set
    by_cases hv : v = FARENHEIT ∨ v = CELSIUS
    · simp [hv, get_meta, set_meta,
        alLookup_alSet_ne s "thermostat" ns _ (fun h => hns h.symm)]
    · simp [hv]
  · intro hv
    have hv' : v = FARENHEIT ∨ v = CELSIUS := by
      rcases hv with h | h <;> [left; right] <;> simp [h, FARENHEIT, CELSIUS]
    simp [thermo_units_set, hv', get_meta, set_meta, alLookup_alSet_self]

/-- Witness for C6 at concrete inputs: writing `battery_voltage_time` leaves
the sibling key `x` of the `Motion` namespace unchanged. -/
theorem metadata_write_frame_witness :
    (get_meta (battery_voltage_time_set
        [("Motion", [("battery_low_voltage", (2 : ℚ)), ("x", 3)])] 5)
      "Motion").bind (fun m => alLookup m "x")
    = (get_meta [("Motion", [("battery_low_voltage", (2 : ℚ)), ("x", 3)])]
        "Motion").bind (fun m => alLookup m "x") :=
  (metadata_write_frame
    [("Motion", [("battery_low_voltage", (2 : ℚ)), ("x", 3)])] 5 "x"
    "Other").1 (by decide)

/-! ### Claim C3 -/

/-- C3: the Motion operating-flags round trip is not the identity.
`_change_flags` stores bit 2 as the *inverted* `night_only` and bit 1 as the
*inverted* `on_only`, but `handle_ext_flags` reads the bits back without
undoing the inversion, so encoding a `(led_on, night_only, on_only)` triple
in `{0,1}^3` and decoding the resulting byte yields
`(led_on, 1 - night_only, 1 - on_only)`. -/
theorem motion_flags_roundtrip (l n o : Nat) (hl : l ≤ 1) (hn : n ≤ 1)
    (ho : o ≤ 1) :
    handleExtFlagsTriple (changeFlagsByte l n o) = (l, 1 - n, 1 - o) := by
  interval_cases l <;> interval_cases n <;> interval_cases o <;> decide

/-- Witness for C3, which is also the failing input for the claimed
round-trip identity: starting from `(0, 0, 0)` the decode returns
`(0, 1, 1)`. -/
theorem motion_flags_roundtrip_witness :
    handleExtFlagsTriple (changeFlagsByte 0 0 0) = (0, 1, 1) :=
  motion_flags_roundtrip 0 0 0 (by decide) (by decide) (by decide)

/-! ### Claim C7 -/

theorem battery_voltage_time_get_set (s : MetaStore) (v : ℚ) :
    battery_voltage_time (battery_voltage_time_set s v) = v := by
  unfold battery_voltage_time battery_voltage_time_set
  cases hm : get_meta s "Motion" with
  | none => simp [get_meta, set_meta, alLookup_alSet_self, alLookup]
  | some existing => simp [get_meta, set_meta, alLookup_alSet_self]

theorem battery_low_voltage_after_time_stamp (desc : Option String)
    (s : MetaStore) (v : ℚ) :
    battery_low_voltage desc (battery_voltage_time_set s v)
      = battery_low_voltage desc s := by
  have hne : ¬ ("battery_voltage_time" = "battery_low_voltage") := by decide
  unfold battery_low_voltage battery_voltage_time_set
  cases hm : get_meta s "Motion" with
  | none => simp [get_meta, set_meta, alLookup_alSet_self, alLookup, hne, hm]
  | some existing =>
    simp [get_meta, set_meta, alLookup_alSet_self, hm,
      alLookup_alSet_ne existing "battery_voltage_time" "battery_low_voltage"
        v hne]

/-- The D1..D14 array of an extended get-flags reply with raw battery byte
133 in D12 (parsed index 11). -/
def motionD133 : List Nat := [0, 0, 0, 0, 0, 0, 0, 0, 0, 0, 0, 133, 0, 0]

/-- C7: `Motion.handle_ext_flags` decodes the battery voltage from parsed
index 11 as `raw / 10` for `2842` models and `round(raw / 72, 2)` otherwise,
stamps `battery_voltage_time = now`, and emits
`signal_low_battery(volts <= battery_low_voltage)` where a stored metadata
threshold takes precedence over the model-dependent default (7.0 V for
`2842`, 1.85 V otherwise); in particular raw 133 on a `2844` model gives
1.85 V and a `true` low-battery signal. -/
theorem motion_battery_voltage_decode (desc : Option String) (s : MetaStore)
    (data : List Nat) (now : ℚ) :
    (motionHandleExtFlags desc s data now).volts
      = (if is2842 desc then (data.getD 11 0 : ℚ) / 10
         else pythonRound2 ((data.getD 11 0 : ℚ) / 72))
    ∧ battery_voltage_time (motionHandleExtFlags desc s data now).store = now
    ∧ ((motionHandleExtFlags desc s data now).low_battery = true ↔
        (motionHandleExtFlags desc s data now).volts
          ≤ battery_low_voltage desc s)
    ∧ (∀ v, (get_meta s "Motion").bind (fun m => alLookup m "battery_low_voltage")
          = some v → battery_low_voltage desc s = v)
    ∧ ((get_meta s "Motion").bind (fun m => alLookup m "battery_low_voltage")
          = none →
        battery_low_voltage desc s = if is2842 desc then 7 else 37/20)
    ∧ (motionHandleExtFlags (some "2844-222") [] motionD133 now).volts = 37/20
    ∧ (motionHandleExtFlags (some "2844-222") [] motionD133 now).low_battery
        = true := by
  refine ⟨rfl, battery_voltage_time_get_set s now, ?_, ?_, ?_, ?_, ?_⟩
  · simp [motionHandleExtFlags, decide_eq_true_iff,
      battery_low_voltage_after_time_stamp]
  · intro v hv
    unfold battery_low_voltage
    cases hm : get_meta s "Motion" with
    | none => simp [hm] at hv
    | some m =>
      rw [hm] at hv
      simp at hv
      simp [hv]
  · intro hv
    unfold battery_low_voltage
    cases hm : get_meta s "Motion" with
    | none => simp
    | some m =>
      rw [hm] at hv
      simp at hv
      simp [hv]
  · have h2844 : is2842 (some "2844-222") = false := by decide
    have hfloor : (⌊(133 : ℚ) / 72 * 100⌋ : ℤ) = 184 := by norm_num
    simp only [motionHandleExtFlags, motionD133, List.getD, h2844,
      Bool.false_eq_true, if_false, pythonRound2, roundHalfEven, hfloor]
    norm_num
  · have h2844 : is2842 (some "2844-222") = false := by decide
    have hfloor : (⌊(133 : ℚ) / 72 * 100⌋ : ℤ) = 184 := by norm_num
    have hvolts : pythonRound2 ((133 : ℚ) / 72) = 37/20 := by
      simp only [pythonRound2, roundHalfEven, hfloor]
      norm_num
    have hblv : battery_low_voltage (some "2844-222")
        (battery_voltage_time_set [] now) = 37/20 := by
      rw [battery_low_voltage_after_time_stamp]
      simp [battery_low_voltage, get_meta, alLookup, h2844]
    simp only [motionHandleExtFlags, motionD133, List.getD, h2844,
      Bool.false_eq_true, if_false, hblv]
    norm_num [hvolts]

/-- Witness for C7: a stored `battery_low_voltage` of 3 V overrides the
default threshold. -/
theorem motion_battery_voltage_decode_witness :
    battery_low_voltage (some "2844-1")
      [("Motion", [("battery_low_voltage", (3 : ℚ))])] = 3 :=
  (motion_battery_voltage_decode (some "2844-1")
    [("Motion", [("battery_low_voltage", (3 : ℚ))])] [] 0).2.2.2.1 3 rfl

/-! ### Claim C4 -/

/-- C4 counterexample: the code truncates with `int()`, it does not round.
With Celsius units, `cool_sp_command(0.75)` sends `cmd2 = int(1.5) = 1`,
while `round(0.75 * 2)` is 2. -/
theorem cool_sp_trunc_not_round :
    cool_sp_cmd2 [("thermostat", [("units", (1 : ℚ))])] (3/4) = 1
    ∧ roundHalfEven (((3 : ℚ)/4) * 2) = 2 := by
  constructor
  · norm_num [cool_sp_cmd2, thermo_units, get_meta, alLookup, FARENHEIT,
      CELSIUS, pythonInt]
  · rw [roundHalfEven]
    norm_num

/-- The amended setpoint formula: convert Celsius to device units when the
stored units are Fahrenheit, clamp to `[0, 127]`, and transmit the *floor*
of twice the clamped value (Python `int()` truncation; the value is
nonnegative after clamping, so truncation is floor). -/
def claimedSpCmd2 (units : ℚ) (temp_c : ℚ) : ℤ :=
  ⌊(max 0 (min 127 (if units = FARENHEIT then temp_c * 9 / 5 + 32 else temp_c)))
    * 2⌋

theorem clamp_floor_key (x : ℚ) :
    pythonInt ((if (if x < 0 then (0 : ℚ) else x) > 127 then (127 : ℚ)
      else if x < 0 then (0 : ℚ) else x) * 2) = ⌊(max 0 (min 127 x)) * 2⌋ := by
  have hc : (if (if x < 0 then (0 : ℚ) else x) > 127 then (127 : ℚ)
      else if x < 0 then (0 : ℚ) else x) = max 0 (min 127 x) := by
    simp only [max_def, min_def]
    split_ifs <;> linarith
  rw [hc, pythonInt, if_neg (not_lt.mpr (by positivity))]

/-- C4 amended: both setpoint commands convert Celsius to Fahrenheit exactly
when the stored units are Fahrenheit, clamp the converted value to
`[0, 127]`, and transmit `cmd2 = int(temp * 2)` — truncation, not rounding —
so `cmd2` always fits in a single byte (`0 ≤ cmd2 ≤ 254`); the frames use
`cmd1 = 0x6d` (heat) and `0x6c` (cool) with 14 zero data bytes;
`cool_sp_command(-5.0)` with Celsius units sends `cmd2 = 0` and
`cool_sp_command(200.0)` sends `cmd2 = 254`. -/
theorem thermo_setpoint_encoding (s : MetaStore) (t : ℚ) :
    heat_sp_cmd2 s t = claimedSpCmd2 (thermo_units s) t
    ∧ cool_sp_cmd2 s t = claimedSpCmd2 (thermo_units s) t
    ∧ (0 ≤ heat_sp_cmd2 s t ∧ heat_sp_cmd2 s t ≤ 254)
    ∧ (0 ≤ cool_sp_cmd2 s t ∧ cool_sp_cmd2 s t ≤ 254)
    ∧ heat_sp_msg s t = ⟨0x6d, heat_sp_cmd2 s t, List.replicate 14 0⟩
    ∧ cool_sp_msg s t = ⟨0x6c, cool_sp_cmd2 s t, List.replicate 14 0⟩
    ∧ cool_sp_cmd2 [("thermostat", [("units", (1 : ℚ))])] (-5) = 0
    ∧ cool_sp_cmd2 [("thermostat", [("units", (1 : ℚ))])] 200 = 254 := by
  have heq : heat_sp_cmd2 s t = claimedSpCmd2 (thermo_units s) t := by
    unfold heat_sp_cmd2 claimedSpCmd2
    exact clamp_floor_key _
  have ceq : cool_sp_cmd2 s t = claimedSpCmd2 (thermo_units s) t := by
    unfold cool_sp_cmd2 claimedSpCmd2
    exact clamp_floor_key _
  have hbound : ∀ u : ℚ, 0 ≤ claimedSpCmd2 u t ∧ claimedSpCmd2 u t ≤ 254 := by
    intro u
    unfold claimedSpCmd2
    constructor
    · exact Int.floor_nonneg.mpr (by positivity)
    · calc ⌊(max 0 (min 127 (if u = FARENHEIT then t * 9 / 5 + 32 else t)))
            * 2⌋
          ≤ ⌊(254 : ℚ)⌋ := by
            apply Int.floor_le_floor
            have : max (0 : ℚ)
                (min 127 (if u = FARENHEIT then t * 9 / 5 + 32 else t))
                ≤ 127 :=
              max_le (by norm_num) (min_le_left _ _)
            linarith
        _ = 254 := by norm_num
  refine ⟨heq, ceq, ?_, ?_, rfl, rfl, ?_, ?_⟩
  · rw [heq]; exact hbound _
  · rw [ceq]; exact hbound _
  · norm_num [cool_sp_cmd2, thermo_units, get_meta, alLookup, FARENHEIT,
      CELSIUS, pythonInt]
  · norm_num [cool_sp_cmd2, thermo_units, get_meta, alLookup, FARENHEIT,
      CELSIUS, pythonInt]

/-! ### Claim C5 -/

/-- The claimed status reply: D6=0x31, D7=72, D8=40, D9-D10=0x00DC,
D11=0b00001001, D12=68 (parsed indices 5..11). -/
def c5Data : List Nat := [0, 0, 0, 0, 0, 0x31, 72, 40, 0x00, 0xDC, 9, 68, 0, 0]

/-- The same reply with the D11 units bit cleared (D11=0b00000001), making
the flag byte actually describe a Fahrenheit device. -/
def c5DataF : List Nat := [0, 0, 0, 0, 0, 0x31, 72, 40, 0x00, 0xDC, 1, 68, 0, 0]

/-- C5 counterexample: with D11 = 0b00001001 the units bit (bit 3) is *set*,
so `process_status_flag` stores Celsius and `handle_status` emits the
setpoints unconverted — `cool_sp_change(72)` and `heat_sp_change(68)`, not
the Fahrenheit-converted 22.22 and 20.0 the claim expects. -/
theorem thermo_status_claimed_reply_is_celsius :
    (handle_status [] c5Data).signals =
      [TSig.statusSig "cooling", TSig.holdSig false, TSig.energySig false,
       TSig.fanSig Fan.on, TSig.modeSig Mode.cool,
       TSig.coolSpSig 72, TSig.humidSig 40, TSig.tempSig 22,
       TSig.heatSpSig 68]
    ∧ thermo_units (handle_status [] c5Data).store = CELSIUS
    ∧ (72 : ℚ) ≠ 200/9 := by
  have h10 : c5Data.getD 10 0 = 9 := rfl
  have h5 : c5Data.getD 5 0 = 49 := rfl
  have h6 : c5Data.getD 6 0 = 72 := rfl
  have h7 : c5Data.getD 7 0 = 40 := rfl
  have h8 : c5Data.getD 8 0 = 0 := rfl
  have h9 : c5Data.getD 9 0 = 220 := rfl
  have h11 : c5Data.getD 11 0 = 68 := rfl
  have hb3 : ((9 : ℕ) >>> 3) &&& 1 = 1 := rfl
  have hb1 : ((9 : ℕ) >>> 1) &&& 1 = 0 := rfl
  have hb2 : ((9 : ℕ) >>> 2) &&& 1 = 0 := rfl
  have hb4 : ((9 : ℕ) >>> 4) &&& 1 = 0 := rfl
  have hb0 : (9 : ℕ) &&& 1 = 1 := rfl
  have hs1 : (49 : ℕ) &&& 1 = 1 := rfl
  have hs4 : (49 : ℕ) >>> 4 = 3 := rfl
  have hu : alLookup [("units", (1 : ℚ))] "units" = some 1 := rfl
  refine ⟨?_, ?_, by norm_num⟩ <;>
  · simp only [handle_status, process_status_flag, h10, h5, h6, h7, h8, h9,
      h11, hb3, hb1, hb2, hb4, hb0, hs1, hs4, thermo_units_set, thermo_units,
      set_meta, get_meta, alSet, alLookup, StatusResult.signals, Fan.ofNat?,
      Mode.ofNat?, FARENHEIT, CELSIUS]
    norm_num [hu]

/-- C5 amended: for the Fahrenheit variant of the claimed reply (D11 =
0b00000001, whose units bit is clear; all other bytes as claimed),
`handle_status` stores Fahrenheit units from D11 before decoding and emits —
in source order — `status_change("cooling")`, `hold_change(false)`,
`energy_change(false)`, `fan_mode_change(on)`, `mode_change(cool)`,
`cool_sp_change(200/9 = 22.22…)`, `ambient_humid_change(40)`,
`ambient_temp_change(22.0)` and `heat_sp_change(20.0)`, the setpoints being
converted as `(val - 32) * 5 / 9`. -/
theorem thermo_status_decode_farenheit :
    (handle_status [] c5DataF).signals =
      [TSig.statusSig "cooling", TSig.holdSig false, TSig.energySig false,
       TSig.fanSig Fan.on, TSig.modeSig Mode.cool,
       TSig.coolSpSig (200/9), TSig.humidSig 40, TSig.tempSig 22,
       TSig.heatSpSig 20]
    ∧ thermo_units (handle_status [] c5DataF).store = FARENHEIT := by
  have h10 : c5DataF.getD 10 0 = 1 := rfl
  have h5 : c5DataF.getD 5 0 = 49 := rfl
  have h6 : c5DataF.getD 6 0 = 72 := rfl
  have h7 : c5DataF.getD 7 0 = 40 := rfl
  have h8 : c5DataF.getD 8 0 = 0 := rfl
  have h9 : c5DataF.getD 9 0 = 220 := rfl
  have h11 : c5DataF.getD 11 0 = 68 := rfl
  have hb3 : ((1 : ℕ) >>> 3) &&& 1 = 0 := rfl
  have hb1 : ((1 : ℕ) >>> 1) &&& 1 = 0 := rfl
  have hb2 : ((1 : ℕ) >>> 2) &&& 1 = 0 := rfl
  have hb4 : ((1 : ℕ) >>> 4) &&& 1 = 0 := rfl
  have hb0 : (1 : ℕ) &&& 1 = 1 := rfl
  have hs1 : (49 : ℕ) &&& 1 = 1 := rfl
  have hs4 : (49 : ℕ) >>> 4 = 3 := rfl
  have hu : alLookup [("units", (0 : ℚ))] "units" = some 0 := rfl
  constructor <;>
  · simp only [handle_status, process_status_flag, h10, h5, h6, h7, h8, h9,
      h11, hb3, hb1, hb2, hb4, hb0, hs1, hs4, thermo_units_set, thermo_units,
      set_meta, get_meta, alSet, alLookup, StatusResult.signals, Fan.ofNat?,
      Mode.ofNat?, FARENHEIT, CELSIUS]
    norm_num [hu]

/-! ### Claim C8 -/

/-- C8 counterexample: on a `2842` model, the claimed clamp range `[30,
14400]` does not fit the one-byte encoding.  `timeout = 14400` encodes to
`int(14400/30) - 1 = 479`, which no byte can carry: `bytes()` fails and no
frame with D3 = 479 exists. -/
theorem motion_timeout_2842_overflow :
    motion_set_timeout_encoded (some "2842-222") 14400 = 479
    ∧ motion_set_timeout_msg (some "2842-222") 14400 = none := by
  constructor <;> decide

theorem tdiv_eq_fdiv_of_nonneg (a b : ℤ) (ha : 0 ≤ a) (hb : 0 ≤ b) :
    a.tdiv b = a.fdiv b := by
  rw [Int.tdiv_eq_ediv ha hb, Int.fdiv_eq_ediv _ hb]

/-- C8 amended: `Motion._set_timeout` clamps to `[30, 14400]` and encodes
`floor(timeout/30) - 1` on `2842` models, clamps to `[10, 2400]` and encodes
`floor(timeout/10)` otherwise; the encoded value is nonnegative, and is sent
as D3 of an extended `(0x2e, 0x00)` frame with `D2 = 0x03` exactly when it
fits in a byte — for `2842` timeouts whose encoding exceeds 255 the byte
conversion fails and no frame is produced. -/
theorem motion_timeout_encoding (desc : Option String) (t : ℤ) :
    motion_set_timeout_encoded desc t
      = (if is2842 desc then (max 30 (min 14400 t)).fdiv 30 - 1
         else (max 10 (min 2400 t)).fdiv 10)
    ∧ 0 ≤ motion_set_timeout_encoded desc t
    ∧ (motion_set_timeout_encoded desc t < 256 →
        motion_set_timeout_msg desc t
          = some ⟨0x2e, 0x00,
              [0, 0x03, (motion_set_timeout_encoded desc t).toNat]
                ++ List.replicate 11 0⟩)
    ∧ (255 < motion_set_timeout_encoded desc t →
        motion_set_timeout_msg desc t = none) := by
  have hformula : motion_set_timeout_encoded desc t
      = (if is2842 desc then (max 30 (min 14400 t)).fdiv 30 - 1
         else (max 10 (min 2400 t)).fdiv 10) := by
    unfold motion_set_timeout_encoded
    by_cases h : is2842 desc = true
    · rw [if_pos h, if_pos h]
      dsimp only
      have hC : (if (if t < 30 then (30 : ℤ) else t) > 14400 then (14400 : ℤ)
          else if t < 30 then (30 : ℤ) else t) = max 30 (min 14400 t) := by
        simp only [max_def, min_def]
        split_ifs <;> omega
      rw [hC, tdiv_eq_fdiv_of_nonneg _ _
        (le_trans (by norm_num) (le_max_left 30 _)) (by norm_num)]
    · rw [if_neg h, if_neg h]
      dsimp only
      have hC : (if (if t < 10 then (10 : ℤ) else t) > 2400 then (2400 : ℤ)
          else if t < 10 then (10 : ℤ) else t) = max 10 (min 2400 t) := by
        simp only [max_def, min_def]
        split_ifs <;> omega
      rw [hC, tdiv_eq_fdiv_of_nonneg _ _
        (le_trans (by norm_num) (le_max_left 10 _)) (by norm_num)]
  have h0 : 0 ≤ motion_set_timeout_encoded desc t := by
    rw [hformula]
    by_cases h : is2842 desc = true
    · rw [if_pos h]
      have h30 : (30 : ℤ) ≤ max 30 (min 14400 t) := le_max_left 30 _
      have := (Int.le_ediv_iff_mul_le
        (a := 1) (b := max 30 (min 14400 t)) (c := 30) (by norm_num)).mpr
        (by omega)
      rw [Int.fdiv_eq_ediv _ (by norm_num)]
      omega
    · rw [if_neg h]
      have h10 : (10 : ℤ) ≤ max 10 (min 2400 t) := le_max_left 10 _
      rw [Int.fdiv_eq_ediv _ (by norm_num)]
      exact Int.ediv_nonneg (by omega) (by norm_num)
  refine ⟨hformula, h0, ?_, ?_⟩
  · intro henc
    simp [motion_set_timeout_msg, mkBytes, h0, henc]
  · intro hgt
    simp [motion_set_timeout_msg, mkBytes,
      show ¬ (0 ≤ motion_set_timeout_encoded desc t
        ∧ motion_set_timeout_encoded desc t < 256) from by omega]

/-- Witness for C8: a `2844`-style timeout of 12345 s clamps to 2400 s,
encodes to 240, and goes out as D3 of the `(0x2e, 0x00)` frame with
`D2 = 0x03`. -/
theorem motion_timeout_encoding_witness :
    motion_set_timeout_msg (some "2844-222") 12345
      = some ⟨0x2e, 0x00, [0, 0x03, (motion_set_timeout_encoded
          (some "2844-222") 12345).toNat] ++ List.replicate 11 0⟩ :=
  (motion_timeout_encoding (some "2844-222") 12345).2.2.1 (by decide)

/-! ### Claim C9 -/

/-- C9: `Motion.auto_check_battery` fires a get-extended-flags request if
and only if the model prefix is `2842` or `2844`, at least `BATTERY_TIME`
(4 days) has passed since `battery_voltage_time`, and at least 300 s have
passed since `_battery_request_time`; firing stamps `_battery_request_time =
now`.  Concretely, with a stale battery reading, a request time of
`now - 299` blocks the request and `now - 301` lets it through. -/
theorem motion_auto_check_battery (desc : Option String) (s : MetaStore)
    (rt now : ℚ) :
    ((auto_check_battery desc s rt now).1 = true ↔
      (supportsBattery desc = true
        ∧ BATTERY_TIME ≤ now - battery_voltage_time s
        ∧ 300 ≤ now - rt))
    ∧ (auto_check_battery desc s rt now).2
        = (if (auto_check_battery desc s rt now).1 then now else rt)
    ∧ (auto_check_battery (some "2842-222") [] (400000 - 299) 400000).1
        = false
    ∧ auto_check_battery (some "2842-222") [] (400000 - 301) 400000
        = (true, 400000) := by
  have hsupp : supportsBattery (some "2842-222") = true := by decide
  have hbvt : battery_voltage_time [] = 0 := rfl
  refine ⟨?_, ?_, ?_, ?_⟩
  · unfold auto_check_battery
    by_cases hd : supportsBattery desc = true
    · rw [if_pos hd]
      by_cases hc : battery_voltage_time s + BATTERY_TIME ≤ now
          ∧ rt + 300 ≤ now
      · rw [if_pos hc]
        simp only [true_iff]
        exact ⟨hd, by linarith [hc.1], by linarith [hc.2]⟩
      · rw [if_neg hc]
        simp only [Bool.false_eq_true, false_iff]
        rintro ⟨-, h1, h2⟩
        exact hc ⟨by linarith, by linarith⟩
    · rw [if_neg hd]
      simp only [Bool.false_eq_true, false_iff]
      rintro ⟨h1, -, -⟩
      exact hd h1
  · unfold auto_check_battery
    by_cases hd : supportsBattery desc = true
    · rw [if_pos hd]
      by_cases hc : battery_voltage_time s + BATTERY_TIME ≤ now
          ∧ rt + 300 ≤ now
      · rw [if_pos hc]
        simp
      · rw [if_neg hc]
        simp
    · rw [if_neg hd]
      simp
  · unfold auto_check_battery
    rw [if_pos hsupp, if_neg]
    rw [hbvt, BATTERY_TIME]
    intro h
    have := h.2
    norm_num at this
  · unfold auto_check_battery
    rw [if_pos hsupp, if_pos]
    rw [hbvt, BATTERY_TIME]
    norm_num

/-! ### Claim C10 -/

/-- The status reply used for the C10 counterexample: D7 = 72 with
D11 = 0b00001000 (only the units bit set). -/
def c10Data : List Nat := [0, 0, 0, 0, 0, 0x31, 72, 40, 0, 0xDC, 8, 68, 0, 0]

/-- C10 counterexample: with no stored units (empty metadata, so the getter
returns Fahrenheit) a status decode does *not* necessarily apply the
Fahrenheit conversion — the reply's own D11 units bit decides.  With D11 =
0b00001000 the cool setpoint 72 is emitted unconverted. -/
theorem thermo_units_default_decode_gap :
    get_meta ([] : MetaStore) "thermostat" = none
    ∧ thermo_units [] = FARENHEIT
    ∧ (handle_status [] c10Data).cool_sp = 72
    ∧ ((72 : ℚ) - 32) * 5 / 9 ≠ 72 := by
  have h10 : c10Data.getD 10 0 = 8 := rfl
  have h6 : c10Data.getD 6 0 = 72 := rfl
  have hb3 : ((8 : ℕ) >>> 3) &&& 1 = 1 := rfl
  have hu : alLookup [("units", (1 : ℚ))] "units" = some 1 := rfl
  refine ⟨rfl, rfl, ?_, by norm_num⟩
  simp only [handle_status, process_status_flag, h10, h6, hb3,
    thermo_units_set, thermo_units, set_meta, get_meta, alSet, alLookup,
    FARENHEIT, CELSIUS]
  norm_num [hu]

theorem thermo_units_after_flag (s : MetaStore) (flag : Nat) :
    thermo_units (process_status_flag s flag).1
      = (((flag >>> 3) &&& 1 : Nat) : ℚ) := by
  have hu : ((flag >>> 3) &&& 1 : Nat) = 0 ∨ ((flag >>> 3) &&& 1 : Nat) = 1 := by
    have := Nat.and_one_is_mod (flag >>> 3)
    omega
  unfold process_status_flag thermo_units thermo_units_set
  rcases hu with h | h <;>
    simp [h, set_meta, get_meta, alLookup_alSet_self, alLookup, FARENHEIT,
      CELSIUS]

/-- C10 amended: `Thermostat.units` returns `FARENHEIT` (0) whenever the
`thermostat` namespace is absent or lacks the `units` key; consequently both
setpoint commands apply the Celsius-to-Fahrenheit conversion before clamping
and encoding.  A status decode, however, converts D7 and D12 if and only if
the units bit (bit 3) of the reply's own D11 is 0, because the reply
overwrites the stored units before the setpoints are read. -/
theorem thermo_units_default (s : MetaStore) (t : ℚ) (data : List Nat)
    (h : (get_meta s "thermostat").bind (fun m => alLookup m "units") = none) :
    thermo_units s = FARENHEIT
    ∧ heat_sp_cmd2 s t = ⌊(max 0 (min 127 (t * 9 / 5 + 32))) * 2⌋
    ∧ cool_sp_cmd2 s t = ⌊(max 0 (min 127 (t * 9 / 5 + 32))) * 2⌋
    ∧ (handle_status s data).cool_sp
        = (if bit_get (data.getD 10 0) 3 = 0
           then ((data.getD 6 0 : ℚ) - 32) * 5 / 9 else (data.getD 6 0 : ℚ))
    ∧ (handle_status s data).heat_sp
        = (if bit_get (data.getD 10 0) 3 = 0
           then ((data.getD 11 0 : ℚ) - 32) * 5 / 9
           else (data.getD 11 0 : ℚ)) := by
  have hunits : thermo_units s = FARENHEIT := by
    unfold thermo_units
    cases hm : get_meta s "thermostat" with
    | none => rfl
    | some m =>
      rw [hm] at h
      simp at h
      simp [h]
  have hbg : ((data.getD 10 0 >>> 3) &&& 1 : Nat) = bit_get (data.getD 10 0) 3 := by
    rw [Nat.shiftRight_eq_div_pow, Nat.and_one_is_mod, bit_get]
  have hflag := thermo_units_after_flag s (data.getD 10 0)
  refine ⟨hunits, ?_, ?_, ?_, ?_⟩
  · unfold heat_sp_cmd2
    rw [hunits]
    simp only [if_pos rfl]
    exact clamp_floor_key _
  · unfold cool_sp_cmd2
    rw [hunits]
    simp only [if_pos rfl]
    exact clamp_floor_key _
  · simp only [handle_status, hflag, hbg, FARENHEIT, Nat.cast_eq_zero]
  · simp only [handle_status, hflag, hbg, FARENHEIT, Nat.cast_eq_zero]

/-- Witness for C10: with empty metadata the units getter returns
Fahrenheit. -/
theorem thermo_units_default_witness : thermo_units [] = FARENHEIT :=
  (thermo_units_default [] 0 [] rfl).1
